import Mathlib

/-!
Verification of the guangfu incremental tile-generation core.

This file gives a shallow embedding of the Python sources
(`scripts/generate_tiles.py`, `scripts/generate_tiles_old_backup.py`,
`scripts/tms_metadata.py`, `scripts/utils/coordinate_utils.py`) and proves
properties of it.  Pure functions become Lean functions; the network-facing
publish cycles become functions over an explicit environment recording the
outcome of each external call (Redis reads, R2 uploads), mirroring the
Python control flow including its exception paths.
-/

namespace Guangfu

/-! ## Key parsing

Python grid keys are strings `"x_y"` parsed with
`x, y = map(int, grid_id.split('_'))` (any `ValueError` — a non-integer
part or a part count other than two — is caught and the key skipped).
Coordinate keys `"lat_lon"` are split the same way and each part is parsed
with `float(...)`.  We model `str.split`, `int(...)` and `float(...)` on
the character lists; `int` accepts an optional sign followed by one or
more ASCII digits, `float` additionally accepts one decimal point
(exponent / inf / nan forms of Python `float` never occur in the
4-decimal coordinate-key format produced by `coords_to_key`).
-/

/-- Python `s.split(sep)` for a one-character separator, on char lists:
`"a_b"` ↦ `[['a'],['b']]`, `""` ↦ `[[]]`, `"_"` ↦ `[[],[]]`. -/
def splitOnChar (sep : Char) : List Char → List (List Char)
  | [] => [[]]
  | c :: rest =>
    match splitOnChar sep rest with
    | [] => [[]]
    | g :: gs => if c = sep then [] :: g :: gs else (c :: g) :: gs

/-- Value of a list of ASCII digit characters, most significant first. -/
def digitsVal (cs : List Char) : ℕ :=
  cs.foldl (fun a c => 10 * a + (c.toNat - 48)) 0

/-- All characters are ASCII digits. -/
def allDigits (cs : List Char) : Bool :=
  cs.all Char.isDigit

/-- Python `int(s)` on a sign-plus-digits string; `none` models a
`ValueError`. -/
def pyIntChars? : List Char → Option ℤ
  | [] => none
  | '-' :: rest =>
    if rest ≠ [] ∧ allDigits rest then some (-(digitsVal rest : ℤ)) else none
  | '+' :: rest =>
    if rest ≠ [] ∧ allDigits rest then some (digitsVal rest : ℤ) else none
  | cs =>
    if allDigits cs then some (digitsVal cs : ℤ) else none

/-- `x, y = map(int, grid_id.split('_'))`; `none` models the caught
`ValueError` (wrong part count or non-integer part). -/
def parseGridId (s : String) : Option (ℤ × ℤ) :=
  match splitOnChar '_' s.data with
  | [a, b] =>
    match pyIntChars? a, pyIntChars? b with
    | some x, some y => some (x, y)
    | _, _ => none
  | _ => none

/-- Unsigned decimal literal: digits with at most one `'.'`, at least one
digit overall. -/
def pyDecChars? (cs : List Char) : Option ℚ :=
  match splitOnChar '.' cs with
  | [a] => if a ≠ [] ∧ allDigits a then some (digitsVal a : ℚ) else none
  | [a, b] =>
    if (a ≠ [] ∨ b ≠ []) ∧ allDigits a ∧ allDigits b then
      some ((digitsVal a : ℚ) + (digitsVal b : ℚ) / (10 : ℚ) ^ b.length)
    else none
  | _ => none

/-- Python `float(s)` on plain decimal literals; `none` models a
`ValueError`. -/
def pyFloat? (s : String) : Option ℚ :=
  match s.data with
  | '-' :: rest => (pyDecChars? rest).map (fun q => -q)
  | '+' :: rest => pyDecChars? rest
  | cs => pyDecChars? cs

/-- `key_to_coords` (`coordinate_utils.py`): split a `"lat_lon"` key into
its two string parts; `none` models the raised `ValueError` when the part
count is not two. -/
def key_to_coords? (s : String) : Option (String × String) :=
  match splitOnChar '_' s.data with
  | [a, b] => some (⟨a⟩, ⟨b⟩)
  | _ => none

/-! ## ChangeSetResolver (`coordinate_utils.calculate_affected_tiles_from_coords`)

The Python resolver parses each `(lat_str, lon_str)` pair with `float`,
keeps the point when it lies inside the area bounds rectangle (inclusive
comparisons), and inserts `lat_lon_to_tile_coords(lat, lon, zoom)` into a
set.  `lat_lon_to_tile_coords` itself is transcendental floating-point
math (`log`, `tan`); the resolver's contract (skip unparseable keys,
discard out-of-bounds points, deduplicate, empty result is not an error)
does not depend on it, so the embedding takes the projection as an
explicit parameter and proves the contract for every projection. -/

/-- Area bounds rectangle `{'minLat','maxLat','minLng','maxLng'}`. -/
structure AreaBounds where
  minLat : ℚ
  maxLat : ℚ
  minLng : ℚ
  maxLng : ℚ
deriving DecidableEq

/-- The bounds test of `calculate_affected_tiles_from_coords`:
`minLat <= lat <= maxLat and minLng <= lon <= maxLng`. -/
def inBounds (b : AreaBounds) (lat lon : ℚ) : Bool :=
  b.minLat ≤ lat && lat ≤ b.maxLat && b.minLng ≤ lon && lon ≤ b.maxLng

/-- `calculate_affected_tiles_from_coords(changed_coords, area_bounds, zoom)`
with the Web-Mercator projection `lat_lon_to_tile_coords` abstracted as
`proj`.  Keys that fail `float` parsing are skipped (the caught
`ValueError` branch), out-of-bounds points are discarded, and the result
is a set (deduplicated). -/
def calculate_affected_tiles_from_coords
    (proj : ℚ → ℚ → ℕ → ℤ × ℤ × ℕ)
    (changedCoords : List (String × String))
    (areaBounds : AreaBounds) (zoom : ℕ) : Finset (ℤ × ℤ × ℕ) :=
  changedCoords.foldl
    (fun acc p =>
      match pyFloat? p.1, pyFloat? p.2 with
      | some lat, some lon =>
        if inBounds areaBounds lat lon then insert (proj lat lon zoom) acc
        else acc
      | _, _ => acc)
    ∅

/-! ## CoordinateProjector (`coordinate_utils.tile_to_lat_lon_bounds`)

The Python function computes, in floating point,
`min_lng = (tile_x*256 / pixel_count)*360 - 180` and the inverse-Mercator
latitude `degrees(atan(sinh(pi*(1 - y))))` of the tile's pixel rows.  Its
embedding is over `ℝ`; the adjacency property proved below holds at the
float level as well because the two boundary values being compared are
computed by the *same* expression on both tiles. -/

/-- Tile geographic bounds returned by `tile_to_lat_lon_bounds`. -/
structure TileBounds where
  minLat : ℝ
  maxLat : ℝ
  minLng : ℝ
  maxLng : ℝ

/-- Python `math.degrees`. -/
noncomputable def degrees (r : ℝ) : ℝ := r * 180 / Real.pi

/-- `tile_to_lat_lon_bounds(tile_x, tile_y, zoom)`:  the tile's pixel
edges `tile*256` and `(tile+1)*256` mapped back to longitude (linear) and
latitude (inverse Mercator `degrees(atan(sinh(pi*(1 - y*2+1 ...))))`). -/
noncomputable def tile_to_lat_lon_bounds (tileX tileY : ℤ) (zoom : ℕ) : TileBounds :=
  let pixelCount : ℝ := 2 ^ zoom * 256
  let minXPixel : ℝ := (tileX : ℝ) * 256
  let maxXPixel : ℝ := ((tileX : ℝ) + 1) * 256
  let minYPixel : ℝ := (tileY : ℝ) * 256
  let maxYPixel : ℝ := ((tileY : ℝ) + 1) * 256
  let minLng : ℝ := minXPixel / pixelCount * 360 - 180
  let maxLng : ℝ := maxXPixel / pixelCount * 360 - 180
  let maxLatY : ℝ := minYPixel / pixelCount * 2 - 1
  let minLatY : ℝ := maxYPixel / pixelCount * 2 - 1
  let maxLat : ℝ := degrees (Real.arctan (Real.sinh (Real.pi * (1 - maxLatY))))
  let minLat : ℝ := degrees (Real.arctan (Real.sinh (Real.pi * (1 - minLatY))))
  ⟨minLat, maxLat, minLng, maxLng⟩

/-! ## RasterMergeEngine (`generate_tiles.py`)

A tile raster is a 256×256 grid of RGBA pixels.  PNG encoding/decoding is
lossless and alpha-preserving (PIL, `format='PNG'`), so the byte string
is modelled by the decoded pixel grid itself.  `parse_existing_tile_pixels`
reverse-maps each pixel's exact RGBA value to a state through
`color_to_state`, recording only non-`STATE_UNDEFINED` matches (foreign
colors are ignored); `generate_incremental_tile` paints the reconstructed
pixels onto a transparent image and then paints every changed grid entry
that falls inside the tile on top of them, in iteration order. -/

/-- One RGBA pixel. -/
abbrev RGBA := ℕ × ℕ × ℕ × ℕ

/-- A 256×256 pixel grid, indexed `pixels[x, y]` as in PIL. -/
def PixelGrid := Fin 256 → Fin 256 → RGBA

/-- `TILE_SIZE = 256`. -/
def TILE_SIZE : ℤ := 256

/-- `STATE_CLEAR = 0`. -/
def STATE_CLEAR : ℤ := 0

/-- `STATE_MUDDY = 1`. -/
def STATE_MUDDY : ℤ := 1

/-- `STATE_UNDEFINED = -1`. -/
def STATE_UNDEFINED : ℤ := -1

/-- `COLOR_PALETTE[STATE_CLEAR]`. -/
def COLOR_CLEAR : RGBA := (0, 255, 0, 120)

/-- `COLOR_PALETTE[STATE_MUDDY]`. -/
def COLOR_MUDDY : RGBA := (139, 69, 19, 180)

/-- `COLOR_PALETTE[STATE_UNDEFINED]`, also the `.get` default. -/
def COLOR_TRANSPARENT : RGBA := (0, 0, 0, 0)

/-- `COLOR_PALETTE.get(state, (0, 0, 0, 0))`. -/
def palette (state : ℤ) : RGBA :=
  if state = STATE_CLEAR then COLOR_CLEAR
  else if state = STATE_MUDDY then COLOR_MUDDY
  else COLOR_TRANSPARENT

/-- `parse_existing_tile_pixels`: the entry the reconstructed-pixel dict
holds at `(x, y)` — the state whose palette color exactly matches the
pixel, with `STATE_UNDEFINED` (transparent) and unmatched foreign colors
both left out of the dict (`none`). -/
def parse_existing_tile_pixels (g : PixelGrid) (x y : Fin 256) : Option ℤ :=
  if g x y = COLOR_CLEAR then some STATE_CLEAR
  else if g x y = COLOR_MUDDY then some STATE_MUDDY
  else none

/-- Setting pixel `pixels[x, y] = c` with global-minus-origin integer
coordinates; callers only pass coordinates inside `[0, 256)`. -/
def setPx (g : PixelGrid) (x y : ℤ) (c : RGBA) : PixelGrid :=
  fun i j => if (i : ℤ) = x ∧ (j : ℤ) = y then c else g i j

/-- The image after `generate_incremental_tile`'s first pass: all
transparent, then each reconstructed dict entry painted with
`COLOR_PALETTE.get(state, (0,0,0,0))`. -/
def basePixels (existing : Option PixelGrid) : PixelGrid :=
  match existing with
  | none => fun _ _ => COLOR_TRANSPARENT
  | some g =>
    fun i j =>
      match parse_existing_tile_pixels g i j with
      | some st => palette st
      | none => COLOR_TRANSPARENT

/-- Whether grid pixel `(gx, gy)` lies in tile `(tileX, tileY)`:
`start_x <= grid_x < start_x + TILE_SIZE` and likewise for `y`. -/
def inTile (tileX tileY gx gy : ℤ) : Prop :=
  tileX * TILE_SIZE ≤ gx ∧ gx < tileX * TILE_SIZE + TILE_SIZE ∧
    tileY * TILE_SIZE ≤ gy ∧ gy < tileY * TILE_SIZE + TILE_SIZE

instance (tileX tileY gx gy : ℤ) : Decidable (inTile tileX tileY gx gy) := by
  unfold inTile; infer_instance

/-- One iteration of `generate_incremental_tile`'s changed-states loop:
parse the key (a `ValueError` skips the entry), check the tile range,
paint `COLOR_PALETTE.get(state, (0,0,0,0))` at the local offset. -/
def paintStep (tileX tileY : ℤ) (img : PixelGrid) (kv : String × ℤ) :
    PixelGrid :=
  match parseGridId kv.1 with
  | none => img
  | some (gx, gy) =>
    if inTile tileX tileY gx gy then
      setPx img (gx - tileX * TILE_SIZE) (gy - tileY * TILE_SIZE)
        (palette kv.2)
    else img

/-- `generate_incremental_tile(tile_x, tile_y, changed_states,
existing_tile_bytes)`: reconstructed existing pixels first, then the
changed grid entries (dict iteration order as a list) painted over them. -/
def generate_incremental_tile (tileX tileY : ℤ)
    (changedStates : List (String × ℤ)) (existing : Option PixelGrid) :
    PixelGrid :=
  changedStates.foldl (paintStep tileX tileY) (basePixels existing)

/-! ## Versions (`generate_tiles.py`, `tms_metadata.py`)

A new version is `str(int(time.time()))`; versions are compared as
Python strings (`max(versions)` in `get_latest_version`,
`sorted(versions, reverse=True)` in `generate_versions_metadata`), i.e.
lexicographically by code point. -/

/-- ASCII digit character for one decimal digit (`'*'` pads the
never-reached out-of-range arm so the function is total). -/
def digitChar : ℕ → Char
  | 0 => '0' | 1 => '1' | 2 => '2' | 3 => '3' | 4 => '4'
  | 5 => '5' | 6 => '6' | 7 => '7' | 8 => '8' | 9 => '9'
  | _ => '*'

/-- Decimal digits of `n`, least significant first. -/
def natDigitsRev (n : ℕ) : List ℕ :=
  if h : n < 10 then [n]
  else n % 10 :: natDigitsRev (n / 10)
decreasing_by exact Nat.div_lt_self (by omega) (by omega)

/-- Python `str(n)` for a natural number: its decimal digits, most
significant first. -/
def pyStrOfNat (n : ℕ) : String :=
  ⟨((natDigitsRev n).reverse).map digitChar⟩

/-- `str(int(time.time()))` — the version allocated by a publish cycle
that reads integer wall-clock second `now`. -/
def newTileVersion (now : ℕ) : String := pyStrOfNat now

/-- Python `<` on strings, on char lists: lexicographic by code point. -/
def charsLt : List Char → List Char → Bool
  | [], [] => false
  | [], _ :: _ => true
  | _ :: _, [] => false
  | c :: cs, d :: ds =>
    if c < d then true else if d < c then false else charsLt cs ds

/-- Python `a < b` on strings. -/
def pyStrLt (a b : String) : Bool := charsLt a.data b.data

/-- Stable insertion keeping a descending order (insert before the first
strictly smaller element), matching Python's stable
`sorted(_, reverse=True)`. -/
def insertDesc (x : String) : List String → List String
  | [] => [x]
  | y :: ys => if pyStrLt y x then x :: y :: ys else y :: insertDesc x ys

/-- `sorted(versions, reverse=True)`. -/
def pySortDesc (l : List String) : List String := l.foldr insertDesc []

/-- One entry of the `versions` array emitted by
`generate_versions_metadata` (the fields the claims are about; the
`iso_datetime` and `metadata_url` fields are derived from `version` the
same way). -/
structure VersionEntry where
  version : String
  timestamp : String
  url : String
deriving DecidableEq

/-- The version-index document of
`TMSMetadataGenerator.generate_versions_metadata(versions)`:  the
`versions` array sorted newest-first by string order, `total_versions`,
and `latest_version = versions[0] if versions else None` — the head of
the *input* list, not of the sorted array. -/
structure VersionsMetadata where
  versions : List VersionEntry
  totalVersions : ℕ
  latestVersion : Option String
deriving DecidableEq

/-- `generate_versions_metadata(versions)` (`tms_metadata.py`). -/
def generate_versions_metadata (versions : List String) : VersionsMetadata :=
  { versions :=
      (pySortDesc versions).map (fun v => ⟨v, v, v ++ "/"⟩)
    totalVersions := versions.length
    latestVersion := versions.head? }

/-- `IntelligentTileGenerator.update_versions_list(new_version)`
(`generate_tiles.py`): read the stored version list, append the new
version if absent (dedup), and regenerate the index document.
`storedVersions` is the `versions` array read back from
`versions/versions.json` in its stored order (newest first, since that
is how `generate_versions_metadata` wrote it). -/
def update_versions_list (storedVersions : List String)
    (newVersion : String) : VersionsMetadata :=
  let existing :=
    if newVersion ∈ storedVersions then storedVersions
    else storedVersions ++ [newVersion]
  generate_versions_metadata existing

/-! ## Tile resolution of the main generator
(`IntelligentTileGenerator.calculate_affected_tiles`, `generate_tiles.py`)

Every change key is parsed as two integers joined by `'_'` and mapped to
`(x // TILE_SIZE, y // TILE_SIZE)` (Python `//` is floor division); a
`ValueError` silently skips the key (`continue`, no log).  There is no
area-bounds filtering. -/

/-- `calculate_affected_tiles(changed_grid_ids)` of the main generator. -/
def calculate_affected_tiles (changedGridIds : List String) :
    Finset (ℤ × ℤ) :=
  changedGridIds.foldl
    (fun acc g =>
      match parseGridId g with
      | some (x, y) => insert (x.fdiv TILE_SIZE, y.fdiv TILE_SIZE) acc
      | none => acc)
    ∅

/-! ## Publish cycle of the main generator
(`IntelligentTileGenerator.generate_intelligent_tiles_for_area`,
`generate_tiles.py`)

The cycle's external calls are recorded in an environment:
`changedGrids` is the `SMEMBERS` result, `finalState` the per-grid `HGET`
result (`none` = missing field, read as `STATE_UNDEFINED`),
`uploadFails t` whether `upload_tile_to_r2` raises for tile `t` (the only
exception that escapes the per-tile `try` — downloads, pixel parsing and
copying catch their own errors), and `metadataFails` whether an error
propagates out of `upload_tms_metadata` (one of its three `put_object`
calls raising; `update_versions_list` and the Redis `SET` swallow their
own errors).  The steps that do not influence the returned result or the
clearing step — existing-tile listing, unchanged-tile copying, the
version-pointer `SET` — only update counters or are fully
exception-caught, and are represented by the counters they feed. -/

/-- External-call outcomes of one
`generate_intelligent_tiles_for_area` run. -/
structure IntelEnv where
  changedGrids : List String
  finalState : String → Option ℤ
  previousVersion : Option String
  uploadFails : ℤ × ℤ → Bool
  metadataFails : Bool
  now : ℕ

/-- Value returned by `generate_intelligent_tiles_for_area` (Python:
`None`, the two `{'success': False, 'reason': ...}` dicts, a propagated
exception, or the final success dict). -/
inductive IntelResult where
  | noChanges
  | noTilesToUpdate
  | noTilesProcessed
  | metadataError
  | published (version : String) (tilesProcessed : ℕ)
deriving DecidableEq

/-- `read_changed_grids_states`: each changed grid id paired with its
parsed `finalState`, defaulting to `STATE_UNDEFINED` when the field is
missing or the read fails. -/
def read_changed_grids_states (env : IntelEnv) : List (String × ℤ) :=
  env.changedGrids.map (fun g => (g, (env.finalState g).getD STATE_UNDEFINED))

/-- `generate_intelligent_tiles_for_area`, returning the Python result
together with whether the change-set clearing step
(`clear_changed_grids`, step 11) was reached. -/
def generate_intelligent_tiles_for_area (env : IntelEnv) :
    IntelResult × Bool :=
  if env.changedGrids = [] then (.noChanges, false)
  else
    let affectedTiles := calculate_affected_tiles env.changedGrids
    if affectedTiles = ∅ then (.noTilesToUpdate, false)
    else
      let successCount :=
        (affectedTiles.filter (fun t => env.uploadFails t = false)).card
      if successCount = 0 then (.noTilesProcessed, false)
      else if env.metadataFails then (.metadataError, false)
      else (.published (newTileVersion env.now) successCount, true)

/-! ## Publish cycle of the standard-TMS generator
(`IntelligentTileGenerator.generate_standard_tiles_for_area`,
`generate_tiles_old_backup.py`)

This cycle resolves tiles with `calculate_affected_tiles_standard`, which
splits each key through `key_to_coords` (unsplittable keys are skipped
with a warning) and feeds the surviving pairs to
`calculate_affected_tiles_from_coords` at `PRIMARY_ZOOM = 19`.  Per tile,
`generate_standard_tile_content` either yields bytes (counted) or returns
`b''` after an internal exception (not counted; `contentOk` records
which); `upload_tile_to_r2_standard` catches its own errors.  `version`
is a `datetime.now()` string, taken as an input. -/

/-- External-call outcomes of one
`generate_standard_tiles_for_area` run. -/
structure StdEnv where
  changedCoords : List String
  bounds : AreaBounds
  proj : ℚ → ℚ → ℕ → ℤ × ℤ × ℕ
  contentOk : ℤ × ℤ × ℕ → Bool
  versionStr : String

/-- Result dict of `generate_standard_tiles_for_area`, with the
change-set clearing step recorded. -/
structure StdResult where
  success : Bool
  reason : Option String
  version : Option String
  tilesProcessed : ℕ
  cleared : Bool
deriving DecidableEq

/-- `calculate_affected_tiles_standard(changed_coord_keys, area_config,
zoom)`. -/
def calculate_affected_tiles_standard (env : StdEnv) (zoom : ℕ) :
    Finset (ℤ × ℤ × ℕ) :=
  calculate_affected_tiles_from_coords env.proj
    (env.changedCoords.filterMap key_to_coords?) env.bounds zoom

/-- `PRIMARY_ZOOM` (`TMSConfig.PRIMARY_ZOOM = 19`). -/
def PRIMARY_ZOOM : ℕ := 19

/-- `generate_standard_tiles_for_area`. -/
def generate_standard_tiles_for_area (env : StdEnv) : StdResult :=
  if env.changedCoords = [] then
    { success := true, reason := none, version := some ("no-changes"),
      tilesProcessed := 0, cleared := false }
  else
    let affectedTiles := calculate_affected_tiles_standard env PRIMARY_ZOOM
    if affectedTiles = ∅ then
      { success := false, reason := some ("no_tiles_to_update"),
        version := none, tilesProcessed := 0, cleared := false }
    else
      let tilesProcessed :=
        (affectedTiles.filter (fun t => env.contentOk t = true)).card
      { success := true, reason := none, version := some env.versionStr,
        tilesProcessed := tilesProcessed, cleared := true }

/-! ## Auxiliary values for the proofs -/

/-- Numeric value of a digit list, most significant first. -/
def valMSD : List ℕ → ℕ
  | [] => 0
  | d :: r => d * 10 ^ r.length + valMSD r

/-- A concrete environment: one valid grid key, every upload succeeding,
but the metadata publish raising. -/
def envMetaFail : IntelEnv :=
  { changedGrids := ["328_156"]
    finalState := fun _ => some STATE_MUDDY
    previousVersion := none
    uploadFails := fun _ => false
    metadataFails := true
    now := 1759299905 }

/-- A concrete environment for a successful publish at clock second
1759299905. -/
def envPublishA : IntelEnv :=
  { changedGrids := ["328_156"]
    finalState := fun _ => some STATE_MUDDY
    previousVersion := none
    uploadFails := fun _ => false
    metadataFails := false
    now := 1759299905 }

/-- A second successful publish, of a different change set, in the same
clock second 1759299905. -/
def envPublishB : IntelEnv :=
  { changedGrids := ["100_100"]
    finalState := fun _ => some STATE_CLEAR
    previousVersion := none
    uploadFails := fun _ => false
    metadataFails := false
    now := 1759299905 }

/-- A concrete standard-cycle environment: one change key parsing to
latitude 99, longitude 0 — outside the bounds rectangle
`[23,24] × [121,122]`. -/
def envOutOfBounds : StdEnv :=
  { changedCoords := ["99.0000_0.0000"]
    bounds := ⟨23, 24, 121, 122⟩
    proj := fun _ _ z => (0, 0, z)
    contentOk := fun _ => true
    versionStr := "20251012000000" }

/-- An all-transparent prior raster. -/
def gridTransparent : PixelGrid := fun _ _ => COLOR_TRANSPARENT

/-- A prior raster that is `COLOR_CLEAR` everywhere. -/
def gridAllClear : PixelGrid := fun _ _ => COLOR_CLEAR

/-! ## Shared characterization lemmas -/

/-- Membership in the fold of `calculate_affected_tiles`. -/
theorem mem_affected_aux (l : List String) (acc : Finset (ℤ × ℤ))
    (t : ℤ × ℤ) :
    t ∈ l.foldl
      (fun acc g =>
        match parseGridId g with
        | some (x, y) => insert (x.fdiv TILE_SIZE, y.fdiv TILE_SIZE) acc
        | none => acc) acc ↔
    t ∈ acc ∨ ∃ k ∈ l, ∃ x y, parseGridId k = some (x, y) ∧
      t = (x.fdiv TILE_SIZE, y.fdiv TILE_SIZE) := by
  induction l generalizing acc with
  | nil => simp
  | cons hd tl ih =>
    simp only [List.foldl_cons, List.mem_cons]
    rw [ih]
    cases hp : parseGridId hd with
    | none =>
      simp only [hp]
      constructor
      · rintro (h | ⟨k, hk, x, y, hpk, ht⟩)
        · exact Or.inl h
        · exact Or.inr ⟨k, Or.inr hk, x, y, hpk, ht⟩
      · rintro (h | ⟨k, hk | hk, x, y, hpk, ht⟩)
        · exact Or.inl h
        · rw [hk] at hpk; rw [hp] at hpk; exact absurd hpk (by simp)
        · exact Or.inr ⟨k, hk, x, y, hpk, ht⟩
    | some xy =>
      obtain ⟨x0, y0⟩ := xy
      simp only [hp, Finset.mem_insert]
      constructor
      · rintro ((h | h) | ⟨k, hk, x, y, hpk, ht⟩)
        · exact Or.inr ⟨hd, Or.inl rfl, x0, y0, hp, h⟩
        · exact Or.inl h
        · exact Or.inr ⟨k, Or.inr hk, x, y, hpk, ht⟩
      · rintro (h | ⟨k, hk | hk, x, y, hpk, ht⟩)
        · exact Or.inl (Or.inr h)
        · rw [hk] at hpk; rw [hp] at hpk
          refine Or.inl (Or.inl ?_)
          simp only [Option.some.injEq, Prod.mk.injEq] at hpk
          rw [ht, hpk.1, hpk.2]
        · exact Or.inr ⟨k, hk, x, y, hpk, ht⟩

/-- A tile is affected (main generator) iff some change key parses to a
pixel pair mapping to it by floor division. -/
theorem mem_calculate_affected_tiles (keys : List String) (t : ℤ × ℤ) :
    t ∈ calculate_affected_tiles keys ↔
    ∃ k ∈ keys, ∃ x y, parseGridId k = some (x, y) ∧
      t = (x.fdiv TILE_SIZE, y.fdiv TILE_SIZE) := by
  rw [calculate_affected_tiles, mem_affected_aux]
  simp

/-- Membership in the fold of `calculate_affected_tiles_from_coords`. -/
theorem mem_from_coords_aux (proj : ℚ → ℚ → ℕ → ℤ × ℤ × ℕ)
    (b : AreaBounds) (zoom : ℕ) (l : List (String × String))
    (acc : Finset (ℤ × ℤ × ℕ)) (t : ℤ × ℤ × ℕ) :
    t ∈ l.foldl
      (fun acc p =>
        match pyFloat? p.1, pyFloat? p.2 with
        | some lat, some lon =>
          if inBounds b lat lon then insert (proj lat lon zoom) acc
          else acc
        | _, _ => acc) acc ↔
    t ∈ acc ∨ ∃ p ∈ l, ∃ lat lon, pyFloat? p.1 = some lat ∧
      pyFloat? p.2 = some lon ∧ inBounds b lat lon = true ∧
      t = proj lat lon zoom := by
  induction l generalizing acc with
  | nil => simp
  | cons hd tl ih =>
    simp only [List.foldl_cons, List.mem_cons]
    rw [ih]
    cases hp1 : pyFloat? hd.1 with
    | none =>
      simp only [hp1]
      constructor
      · rintro (h | ⟨p, hp, lat, lon, h1, h2, h3, ht⟩)
        · exact Or.inl h
        · exact Or.inr ⟨p, Or.inr hp, lat, lon, h1, h2, h3, ht⟩
      · rintro (h | ⟨p, hp | hp, lat, lon, h1, h2, h3, ht⟩)
        · exact Or.inl h
        · rw [hp] at h1; rw [hp1] at h1; exact absurd h1 (by simp)
        · exact Or.inr ⟨p, hp, lat, lon, h1, h2, h3, ht⟩
    | some lat0 =>
      cases hp2 : pyFloat? hd.2 with
      | none =>
        simp only [hp1, hp2]
        constructor
        · rintro (h | ⟨p, hp, lat, lon, h1, h2, h3, ht⟩)
          · exact Or.inl h
          · exact Or.inr ⟨p, Or.inr hp, lat, lon, h1, h2, h3, ht⟩
        · rintro (h | ⟨p, hp | hp, lat, lon, h1, h2, h3, ht⟩)
          · exact Or.inl h
          · rw [hp] at h2; rw [hp2] at h2; exact absurd h2 (by simp)
          · exact Or.inr ⟨p, hp, lat, lon, h1, h2, h3, ht⟩
      | some lon0 =>
        by_cases hb : inBounds b lat0 lon0
        · simp only [hp1, hp2, if_pos hb, Finset.mem_insert]
          constructor
          · rintro ((h | h) | ⟨p, hp, lat, lon, h1, h2, h3, ht⟩)
            · exact Or.inr ⟨hd, Or.inl rfl, lat0, lon0, hp1, hp2, hb, h⟩
            · exact Or.inl h
            · exact Or.inr ⟨p, Or.inr hp, lat, lon, h1, h2, h3, ht⟩
          · rintro (h | ⟨p, hp | hp, lat, lon, h1, h2, h3, ht⟩)
            · exact Or.inl (Or.inr h)
            · rw [hp] at h1 h2; rw [hp1] at h1; rw [hp2] at h2
              simp only [Option.some.injEq] at h1 h2
              subst h1; subst h2
              exact Or.inl (Or.inl ht)
            · exact Or.inr ⟨p, hp, lat, lon, h1, h2, h3, ht⟩
        · simp only [hp1, hp2, if_neg hb]
          constructor
          · rintro (h | ⟨p, hp, lat, lon, h1, h2, h3, ht⟩)
            · exact Or.inl h
            · exact Or.inr ⟨p, Or.inr hp, lat, lon, h1, h2, h3, ht⟩
          · rintro (h | ⟨p, hp | hp, lat, lon, h1, h2, h3, ht⟩)
            · exact Or.inl h
            · rw [hp] at h1 h2; rw [hp1] at h1; rw [hp2] at h2
              simp only [Option.some.injEq] at h1 h2
              subst h1; subst h2
              exact absurd h3 (by simp [hb])
            · exact Or.inr ⟨p, hp, lat, lon, h1, h2, h3, ht⟩

/-- A tile is in the resolver's result iff some input pair parses to an
in-bounds point projecting to it. -/
theorem mem_calculate_affected_tiles_from_coords
    (proj : ℚ → ℚ → ℕ → ℤ × ℤ × ℕ) (coords : List (String × String))
    (b : AreaBounds) (zoom : ℕ) (t : ℤ × ℤ × ℕ) :
    t ∈ calculate_affected_tiles_from_coords proj coords b zoom ↔
    ∃ p ∈ coords, ∃ lat lon, pyFloat? p.1 = some lat ∧
      pyFloat? p.2 = some lon ∧ inBounds b lat lon = true ∧
      t = proj lat lon zoom := by
  rw [calculate_affected_tiles_from_coords, mem_from_coords_aux]
  simp

/-! ## Helper lemmas for the merge engine -/

/-- Reconstructing a raster whose pixels are all palette colors or
transparent, then repainting them, reproduces the raster exactly. -/
theorem basePixels_of_palette (g : PixelGrid)
    (hpal : ∀ i j, g i j = COLOR_CLEAR ∨ g i j = COLOR_MUDDY ∨
      g i j = COLOR_TRANSPARENT) (i j : Fin 256) :
    basePixels (some g) i j = g i j := by
  have hb : basePixels (some g) i j =
      match parse_existing_tile_pixels g i j with
      | some st => palette st
      | none => COLOR_TRANSPARENT := rfl
  rw [hb]
  unfold parse_existing_tile_pixels
  rcases hpal i j with h | h | h <;> rw [h] <;> decide

/-- A run of changed-state entries none of which targets pixel `(i, j)`
of the tile leaves that pixel untouched. -/
theorem foldl_paint_preserve (tileX tileY : ℤ) (l : List (String × ℤ))
    (img : PixelGrid) (i j : Fin 256)
    (h : ∀ kv ∈ l, ∀ gx gy, parseGridId kv.1 = some (gx, gy) →
      inTile tileX tileY gx gy →
      ¬((i : ℤ) = gx - tileX * TILE_SIZE ∧ (j : ℤ) = gy - tileY * TILE_SIZE)) :
    l.foldl (paintStep tileX tileY) img i j = img i j := by
  induction l generalizing img with
  | nil => rfl
  | cons kv tl ih =>
    rw [List.foldl_cons]
    rw [ih _ (fun kv' hkv' => h kv' (List.mem_cons_of_mem kv hkv'))]
    cases hp : parseGridId kv.1 with
    | none => simp only [paintStep, hp]
    | some xy =>
      obtain ⟨gx, gy⟩ := xy
      simp only [paintStep, hp]
      by_cases hin : inTile tileX tileY gx gy
      · rw [if_pos hin]
        unfold setPx
        rw [if_neg (h kv (List.mem_cons_self kv tl) gx gy hp hin)]
      · rw [if_neg hin]

/-- General overwrite lemma for `generate_incremental_tile`: an entry of
the changed-states list targeting a pixel of the tile determines that
pixel of the merged raster, provided no later entry targets the same
pixel. -/
theorem merge_entry_paints (tileX tileY gx gy st : ℤ) (k : String)
    (pre post : List (String × ℤ)) (existing : Option PixelGrid)
    (i j : Fin 256)
    (hk : parseGridId k = some (gx, gy))
    (hin : inTile tileX tileY gx gy)
    (hi : (i : ℤ) = gx - tileX * TILE_SIZE)
    (hj : (j : ℤ) = gy - tileY * TILE_SIZE)
    (hlast : ∀ kv ∈ post, ∀ gx' gy', parseGridId kv.1 = some (gx', gy') →
      inTile tileX tileY gx' gy' → (gx', gy') ≠ (gx, gy)) :
    generate_incremental_tile tileX tileY (pre ++ (k, st) :: post) existing
      i j = palette st := by
  unfold generate_incremental_tile
  rw [List.foldl_append, List.foldl_cons]
  rw [foldl_paint_preserve]
  · simp only [paintStep, hk]
    rw [if_pos hin]
    unfold setPx
    rw [if_pos ⟨hi, hj⟩]
  · intro kv hkv gx' gy' hp hin'
    rintro ⟨hi', hj'⟩
    apply hlast kv hkv gx' gy' hp hin'
    have hgx : gx' = gx := by omega
    have hgy : gy' = gy := by omega
    rw [hgx, hgy]

/-! ## Helper lemmas for the standard-cycle resolver -/

/-- Value of the 4-decimal coordinate string used in the out-of-bounds
scenario. -/
theorem pyFloat_99 : pyFloat? ("99.0000") = some 99 := by
  simp [pyFloat?, pyDecChars?, splitOnChar, allDigits, digitsVal]

/-- When every key of the change set either fails to parse or parses to
a point outside the bounds rectangle, the standard resolver returns the
empty tile set. -/
theorem std_affected_empty (env : StdEnv) (zoom : ℕ)
    (hout : ∀ k ∈ env.changedCoords, ∀ a b, key_to_coords? k = some (a, b) →
      ∀ lat lon, pyFloat? a = some lat → pyFloat? b = some lon →
        inBounds env.bounds lat lon = false) :
    calculate_affected_tiles_standard env zoom = ∅ := by
  rw [Finset.eq_empty_iff_forall_not_mem]
  intro t ht
  rw [calculate_affected_tiles_standard,
    mem_calculate_affected_tiles_from_coords] at ht
  obtain ⟨p, hp, lat, lon, h1, h2, h3, _⟩ := ht
  rw [List.mem_filterMap] at hp
  obtain ⟨k, hk, hkp⟩ := hp
  have hfalse := hout k hk p.1 p.2 (by rw [hkp]) lat lon h1 h2
  rw [h3] at hfalse
  cases hfalse

/-- Every key of `envOutOfBounds` parses to a point outside its bounds
rectangle. -/
theorem envOutOfBounds_all_out :
    ∀ k ∈ envOutOfBounds.changedCoords, ∀ a b,
      key_to_coords? k = some (a, b) → ∀ lat lon, pyFloat? a = some lat →
      pyFloat? b = some lon →
        inBounds envOutOfBounds.bounds lat lon = false := by
  intro k hk a b hab lat lon h1 h2
  simp only [envOutOfBounds, List.mem_singleton] at hk
  subst hk
  have hd : key_to_coords? ("99.0000_0.0000")
      = some ("99.0000", "0.0000") := by decide
  rw [hd] at hab
  simp only [Option.some.injEq, Prod.mk.injEq] at hab
  rw [← hab.1] at h1
  rw [pyFloat_99] at h1
  injection h1 with h1
  subst h1
  norm_num [inBounds, envOutOfBounds]

/-! ## Helper lemmas for decimal version strings -/

/-- Appending a least-significant digit multiplies the value by ten. -/
theorem valMSD_append_digit (l : List ℕ) (d : ℕ) :
    valMSD (l ++ [d]) = 10 * valMSD l + d := by
  induction l with
  | nil => simp [valMSD]
  | cons x xs ih =>
    have hl : (xs ++ [d]).length = xs.length + 1 := by simp
    calc valMSD ((x :: xs) ++ [d])
        = x * 10 ^ (xs ++ [d]).length + valMSD (xs ++ [d]) := rfl
      _ = x * 10 ^ (xs.length + 1) + (10 * valMSD xs + d) := by rw [ih, hl]
      _ = 10 * valMSD (x :: xs) + d := by
          show _ = 10 * (x * 10 ^ xs.length + valMSD xs) + d
          ring

/-- The most-significant-first digits of `n` have value `n`. -/
theorem valMSD_digits (n : ℕ) : valMSD ((natDigitsRev n).reverse) = n := by
  induction n using Nat.strong_induction_on with
  | _ n ih =>
    rw [natDigitsRev]
    split
    · simp [valMSD]
    · rename_i h
      rw [List.reverse_cons, valMSD_append_digit,
        ih (n / 10) (Nat.div_lt_self (by omega) (by omega))]
      omega

/-- Every decimal digit is below ten. -/
theorem natDigitsRev_digits_lt (n : ℕ) :
    ∀ d ∈ natDigitsRev n, d < 10 := by
  induction n using Nat.strong_induction_on with
  | _ n ih =>
    rw [natDigitsRev]
    split
    · rename_i h
      intro d hd
      simp only [List.mem_singleton] at hd
      omega
    · rename_i h
      intro d hd
      simp only [List.mem_cons] at hd
      rcases hd with hd | hd
      · omega
      · exact ih (n / 10) (Nat.div_lt_self (by omega) (by omega)) d hd

/-- Numbers below `10 ^ k` have at most `k` digits. -/
theorem natDigitsRev_length_le (k : ℕ) : ∀ n, n < 10 ^ k → 1 ≤ k →
    (natDigitsRev n).length ≤ k := by
  induction k with
  | zero => omega
  | succ k ih =>
    intro n hn _
    rw [natDigitsRev]
    split
    · simp
    · rename_i h
      simp only [List.length_cons]
      have hk : 1 ≤ k := by
        by_contra hk
        have : k = 0 := by omega
        subst this
        simp at hn
        omega
      have : n / 10 < 10 ^ k := by
        rw [Nat.div_lt_iff_lt_mul (by omega)]
        calc n < 10 ^ (k + 1) := hn
        _ = 10 ^ k * 10 := by ring
      have := ih (n / 10) this hk
      omega

/-- Numbers at least `10 ^ k` have more than `k` digits. -/
theorem natDigitsRev_length_ge (k : ℕ) : ∀ n, 10 ^ k ≤ n →
    k + 1 ≤ (natDigitsRev n).length := by
  induction k with
  | zero =>
    intro n _
    rw [natDigitsRev]
    split
    · simp
    · simp
  | succ k ih =>
    intro n hn
    rw [natDigitsRev]
    split
    · rename_i h
      have : 10 ≤ 10 ^ (k + 1) := by
        calc (10 : ℕ) = 10 ^ 1 := by ring
        _ ≤ 10 ^ (k + 1) := Nat.pow_le_pow_right (by omega) (by omega)
      omega
    · rename_i h
      simp only [List.length_cons]
      have : 10 ^ k ≤ n / 10 := by
        rw [Nat.le_div_iff_mul_le (by omega)]
        calc 10 ^ k * 10 = 10 ^ (k + 1) := by ring
        _ ≤ n := hn
      have := ih (n / 10) this
      omega

/-- A digit list's value is below `10 ^ length`. -/
theorem valMSD_lt_pow (l : List ℕ) (h : ∀ d ∈ l, d < 10) :
    valMSD l < 10 ^ l.length := by
  induction l with
  | nil => simp [valMSD]
  | cons x xs ih =>
    simp only [valMSD, List.length_cons]
    have hx : x < 10 := h x (List.mem_cons_self x xs)
    have hxs := ih (fun d hd => h d (List.mem_cons_of_mem x hd))
    calc x * 10 ^ xs.length + valMSD xs
        < x * 10 ^ xs.length + 10 ^ xs.length := by omega
    _ = (x + 1) * 10 ^ xs.length := by ring
    _ ≤ 10 * 10 ^ xs.length := Nat.mul_le_mul_right _ (by omega)
    _ = 10 ^ (xs.length + 1) := by ring

/-- Digit characters compare like their digits. -/
theorem digitChar_lt (x y : ℕ) (hx : x < 10) (hy : y < 10) (h : x < y) :
    digitChar x < digitChar y := by
  interval_cases x <;> interval_cases y <;> decide

/-- Equal-length decimal digit strings compare lexicographically like
their values. -/
theorem charsLt_of_valMSD_lt :
    ∀ a b : List ℕ, a.length = b.length → (∀ d ∈ a, d < 10) →
      (∀ d ∈ b, d < 10) → valMSD a < valMSD b →
      charsLt (a.map digitChar) (b.map digitChar) = true := by
  intro a
  induction a with
  | nil =>
    intro b hlen _ _ hval
    have : b = [] := List.eq_nil_of_length_eq_zero hlen.symm
    subst this
    simp [valMSD] at hval
  | cons x xs ih =>
    intro b hlen ha hb hval
    cases b with
    | nil => simp at hlen
    | cons y ys =>
      simp only [List.length_cons] at hlen
      have hlen' : xs.length = ys.length := by omega
      have hx : x < 10 := ha x (List.mem_cons_self x xs)
      have hy : y < 10 := hb y (List.mem_cons_self y ys)
      rcases lt_trichotomy x y with hxy | hxy | hxy
      · simp only [List.map_cons, charsLt]
        rw [if_pos (digitChar_lt x y hx hy hxy)]
      · subst hxy
        simp only [List.map_cons, charsLt]
        rw [if_neg (lt_irrefl _), if_neg (lt_irrefl _)]
        apply ih ys hlen' (fun d hd => ha d (List.mem_cons_of_mem x hd))
          (fun d hd => hb d (List.mem_cons_of_mem x hd))
        simp only [valMSD, hlen'] at hval
        omega
      · exfalso
        have h1 : valMSD ys < 10 ^ ys.length :=
          valMSD_lt_pow ys (fun d hd => hb d (List.mem_cons_of_mem y hd))
        have h2 : valMSD (y :: ys) = y * 10 ^ ys.length + valMSD ys := rfl
        have h4 : valMSD (x :: xs) = x * 10 ^ ys.length + valMSD xs := by
          simp only [valMSD, hlen']
        have h3 : (y + 1) * 10 ^ ys.length ≤ x * 10 ^ ys.length :=
          Nat.mul_le_mul_right _ (by omega)
        have h5 : (y + 1) * 10 ^ ys.length
            = y * 10 ^ ys.length + 10 ^ ys.length := by ring
        omega

/-- Ten-digit numbers have exactly ten digits. -/
theorem natDigitsRev_length_ten (n : ℕ) (h1 : 10 ^ 9 ≤ n)
    (h2 : n < 10 ^ 10) : (natDigitsRev n).length = 10 := by
  have ha := natDigitsRev_length_le 10 n h2 (by omega)
  have hb := natDigitsRev_length_ge 9 n h1
  omega

/-- The Python string order is irreflexive. -/
theorem charsLt_self (l : List Char) : charsLt l l = false := by
  induction l with
  | nil => rfl
  | cons c cs ih =>
    unfold charsLt
    rw [if_neg (lt_irrefl c), if_neg (lt_irrefl c)]
    exact ih

/-! ## Claim theorems -/

/-- C1: in every publish cycle, the pending change set is deleted only
after the metadata publish step has succeeded — if an error propagates
out of `upload_tms_metadata` (`metadataFails`), the change-set clearing
step (`clear_changed_grids`) is never reached, leaving the change set
intact. -/
theorem claim_C1_clear_only_after_metadata (env : IntelEnv)
    (h : env.metadataFails = true) :
    (generate_intelligent_tiles_for_area env).2 = false := by
  unfold generate_intelligent_tiles_for_area
  simp only [h]
  split_ifs <;> rfl

/-- Witness for C1 at a concrete environment whose metadata publish
raises. -/
theorem claim_C1_witness :
    (generate_intelligent_tiles_for_area envMetaFail).2 = false :=
  claim_C1_clear_only_after_metadata envMetaFail rfl

/-- C2, counterexample: a non-empty change set whose only point parses to
latitude 99 — outside the bounds rectangle `[23,24] × [121,122]` — makes
the cycle return `success = false` with reason `no_tiles_to_update`, and
the change set is NOT cleared; the claim asserts `success:true` and a
cleared change set. -/
theorem claim_C2_counterexample :
    (generate_standard_tiles_for_area envOutOfBounds).success = false ∧
    (generate_standard_tiles_for_area envOutOfBounds).cleared = false ∧
    (generate_standard_tiles_for_area envOutOfBounds).reason
      = some ("no_tiles_to_update") := by
  have hempty :=
    std_affected_empty envOutOfBounds PRIMARY_ZOOM envOutOfBounds_all_out
  unfold generate_standard_tiles_for_area
  rw [if_neg (by simp [envOutOfBounds]), hempty, if_pos rfl]
  exact ⟨rfl, rfl, rfl⟩

/-- C2, amended: when every point of a non-empty change set lies outside
the area's bounds, the resolver returns the empty tile set and the cycle
terminates early reporting `{success: false, reason:
no_tiles_to_update}` with zero tiles processed, and the change set is
left uncleared in that cycle. -/
theorem claim_C2_out_of_bounds_outcome (env : StdEnv)
    (hne : env.changedCoords ≠ [])
    (hout : ∀ k ∈ env.changedCoords, ∀ a b, key_to_coords? k = some (a, b) →
      ∀ lat lon, pyFloat? a = some lat → pyFloat? b = some lon →
        inBounds env.bounds lat lon = false) :
    generate_standard_tiles_for_area env =
      { success := false, reason := some ("no_tiles_to_update"),
        version := none, tilesProcessed := 0, cleared := false } := by
  unfold generate_standard_tiles_for_area
  rw [if_neg hne, std_affected_empty env PRIMARY_ZOOM hout, if_pos rfl]

/-- Witness for the amended C2 at the concrete out-of-bounds
environment. -/
theorem claim_C2_witness :
    generate_standard_tiles_for_area envOutOfBounds =
      { success := false, reason := some ("no_tiles_to_update"),
        version := none, tilesProcessed := 0, cleared := false } :=
  claim_C2_out_of_bounds_outcome envOutOfBounds (by simp [envOutOfBounds])
    envOutOfBounds_all_out

/-- C3: in `generate_incremental_tile`, a changed-states entry targeting
a pixel of the tile overwrites whatever was reconstructed from the
existing raster with the changed state's palette color (transparent for
`STATE_UNDEFINED`), provided no later entry of the map targets the same
pixel. -/
theorem claim_C3_changed_entries_overwrite (tileX tileY gx gy st : ℤ)
    (k : String) (pre post : List (String × ℤ)) (existing : Option PixelGrid)
    (i j : Fin 256)
    (hk : parseGridId k = some (gx, gy))
    (hin : inTile tileX tileY gx gy)
    (hi : (i : ℤ) = gx - tileX * TILE_SIZE)
    (hj : (j : ℤ) = gy - tileY * TILE_SIZE)
    (hlast : ∀ kv ∈ post, ∀ gx' gy', parseGridId kv.1 = some (gx', gy') →
      inTile tileX tileY gx' gy' → (gx', gy') ≠ (gx, gy)) :
    generate_incremental_tile tileX tileY (pre ++ (k, st) :: post) existing
      i j = palette st :=
  merge_entry_paints tileX tileY gx gy st k pre post existing i j hk hin hi
    hj hlast

/-- Witness for C3 over an all-Clear existing raster, with keys
`"7_4"` and `"3_3"` of tile `(0, 0)`: the Undefined entry repaints the
existing Clear pixel `(3, 3)` fully transparent, and the Muddy entry
paints pixel `(7, 4)` the Muddy palette color. -/
theorem claim_C3_witness :
    generate_incremental_tile 0 0
      [("7_4", STATE_MUDDY), ("3_3", STATE_UNDEFINED)]
      (some gridAllClear) 3 3 = (0, 0, 0, 0) ∧
    generate_incremental_tile 0 0
      [("7_4", STATE_MUDDY), ("3_3", STATE_UNDEFINED)]
      (some gridAllClear) 7 4 = (139, 69, 19, 180) := by
  constructor
  · have := claim_C3_changed_entries_overwrite 0 0 3 3 STATE_UNDEFINED
      ("3_3") [("7_4", STATE_MUDDY)] [] (some gridAllClear) 3 3 (by decide)
      (by decide) (by decide) (by decide) (by intro kv hkv; cases hkv)
    simpa [palette, STATE_UNDEFINED, STATE_CLEAR, STATE_MUDDY,
      COLOR_TRANSPARENT] using this
  · have := claim_C3_changed_entries_overwrite 0 0 7 4 STATE_MUDDY
      ("7_4") [] [("3_3", STATE_UNDEFINED)] (some gridAllClear) 7 4
      (by decide) (by decide) (by decide) (by decide)
      (by intro kv hkv gx' gy' hp hin'
          simp only [List.mem_singleton] at hkv
          subst hkv
          have hd : parseGridId ("3_3") = some (3, 3) := by decide
          rw [hd] at hp
          simp only [Option.some.injEq, Prod.mk.injEq] at hp
          rw [← hp.1, ← hp.2]
          decide)
    simpa [palette, STATE_MUDDY, STATE_CLEAR, COLOR_MUDDY] using this

/-- C4: evaluation showing the version-index bug — after updating a
stored index `[1759299905]` with the strictly newer version
`1759303505`, the emitted `versions` array is sorted newest-first with
the new version on top, yet `latest_version` is `1759299905`, the head
of the *input* list, not the newest version of the array
(`generate_versions_metadata` computes `versions[0]` of its unsorted
argument). -/
theorem claim_C4_latest_version_not_newest :
    (update_versions_list ["1759299905"] ("1759303505")).latestVersion
      = some ("1759299905") ∧
    (update_versions_list ["1759299905"] ("1759303505")).versions.map
      VersionEntry.version = ["1759303505", "1759299905"] ∧
    pyStrLt ("1759299905") ("1759303505") = true := by
  decide

/-- C5, counterexample: a point classified Muddy is painted RGBA
`(139, 69, 19, 180)` — the code's `COLOR_PALETTE[STATE_MUDDY]` — which
differs from the `(139, 69, 19, 200)` asserted by the claim. -/
theorem claim_C5_counterexample :
    generate_incremental_tile 0 0 [("7_4", STATE_MUDDY)]
      (some gridTransparent) 7 4 = (139, 69, 19, 180) ∧
    ((139, 69, 19, 180) : RGBA) ≠ (139, 69, 19, 200) := by
  constructor
  · decide
  · decide

/-- C5, amended: a changed point classified Muddy whose grid key falls in
the tile gets exactly the Muddy palette color RGBA `(139, 69, 19, 180)`
(not `(139,69,19,200)`) at its local offset in the merged raster, and
every other pixel of that tile is unchanged from the prior version's
raster (whose pixels are palette colors or transparent).  In the main
generator, tile addresses and offsets come from the integer grid key,
`calculate_affected_tiles`-style, not from the Web Mercator formula. -/
theorem claim_C5_muddy_pixel (tileX tileY gx gy : ℤ) (k : String)
    (g : PixelGrid) (i j : Fin 256)
    (hpal : ∀ x y, g x y = COLOR_CLEAR ∨ g x y = COLOR_MUDDY ∨
      g x y = COLOR_TRANSPARENT)
    (hk : parseGridId k = some (gx, gy))
    (hin : inTile tileX tileY gx gy)
    (hi : (i : ℤ) = gx - tileX * TILE_SIZE)
    (hj : (j : ℤ) = gy - tileY * TILE_SIZE) :
    generate_incremental_tile tileX tileY [(k, STATE_MUDDY)] (some g) i j
      = (139, 69, 19, 180) ∧
    ∀ x y : Fin 256, ¬(x = i ∧ y = j) →
      generate_incremental_tile tileX tileY [(k, STATE_MUDDY)] (some g) x y
        = g x y := by
  constructor
  · have := merge_entry_paints tileX tileY gx gy STATE_MUDDY k [] []
      (some g) i j hk hin hi hj (by intro kv hkv; cases hkv)
    simpa [palette, STATE_MUDDY, STATE_CLEAR, COLOR_MUDDY] using this
  · intro x y hxy
    show paintStep tileX tileY (basePixels (some g)) (k, STATE_MUDDY) x y
      = g x y
    simp only [paintStep, hk]
    rw [if_pos hin]
    unfold setPx
    rw [if_neg (by rintro ⟨h1, h2⟩; exact hxy ⟨by omega, by omega⟩)]
    exact basePixels_of_palette g hpal x y

/-- Witness for the amended C5: Muddy painted at pixel `(7, 4)` of tile
`(0, 0)` over an all-Clear prior raster. -/
theorem claim_C5_witness :
    generate_incremental_tile 0 0 [("7_4", STATE_MUDDY)]
      (some gridAllClear) 7 4 = (139, 69, 19, 180) ∧
    ∀ x y : Fin 256, ¬(x = 7 ∧ y = 4) →
      generate_incremental_tile 0 0 [("7_4", STATE_MUDDY)]
        (some gridAllClear) x y = gridAllClear x y :=
  claim_C5_muddy_pixel 0 0 7 4 ("7_4") gridAllClear 7 4
    (fun _ _ => Or.inl rfl) (by decide) (by decide) (by decide) (by decide)

/-- C6: merging an empty change set against an existing raster whose
every pixel is a palette color or fully transparent reproduces the
raster's decoded pixel grid exactly. -/
theorem claim_C6_empty_merge_preserves (tileX tileY : ℤ) (g : PixelGrid)
    (hpal : ∀ i j, g i j = COLOR_CLEAR ∨ g i j = COLOR_MUDDY ∨
      g i j = COLOR_TRANSPARENT) :
    generate_incremental_tile tileX tileY [] (some g) = g := by
  funext i j
  show basePixels (some g) i j = g i j
  exact basePixels_of_palette g hpal i j

/-- Witness for C6 at an all-Clear raster. -/
theorem claim_C6_witness :
    generate_incremental_tile 3 5 [] (some gridAllClear) = gridAllClear :=
  claim_C6_empty_merge_preserves 3 5 gridAllClear (fun _ _ => Or.inl rfl)

/-- C7: the change-set resolver's contract, for every projection: a tile
is in the result exactly when some input key pair parses as floats to a
point inside the bounds rectangle projecting to it (so unparseable keys
are skipped and out-of-bounds points discarded, and the result is a
deduplicated set); and when no point survives filtering the result is
the empty set, not an error. -/
theorem claim_C7_resolver_contract (proj : ℚ → ℚ → ℕ → ℤ × ℤ × ℕ)
    (coords : List (String × String)) (b : AreaBounds) (zoom : ℕ) :
    (∀ t, t ∈ calculate_affected_tiles_from_coords proj coords b zoom ↔
      ∃ p ∈ coords, ∃ lat lon, pyFloat? p.1 = some lat ∧
        pyFloat? p.2 = some lon ∧ inBounds b lat lon = true ∧
        t = proj lat lon zoom) ∧
    ((∀ p ∈ coords, ∀ lat lon, pyFloat? p.1 = some lat →
        pyFloat? p.2 = some lon → inBounds b lat lon = false) →
      calculate_affected_tiles_from_coords proj coords b zoom = ∅) := by
  refine ⟨mem_calculate_affected_tiles_from_coords proj coords b zoom,
    fun h => ?_⟩
  rw [Finset.eq_empty_iff_forall_not_mem]
  intro t ht
  rw [mem_calculate_affected_tiles_from_coords] at ht
  obtain ⟨p, hp, lat, lon, h1, h2, h3, _⟩ := ht
  have hfalse := h p hp lat lon h1 h2
  rw [h3] at hfalse
  cases hfalse

/-- Witness for C7: a single unparseable key yields the empty set. -/
theorem claim_C7_witness :
    calculate_affected_tiles_from_coords (fun _ _ z => (0, 0, z))
      [("abc", "0")] ⟨23, 24, 121, 122⟩ 19 = ∅ :=
  (claim_C7_resolver_contract (fun _ _ z => (0, 0, z))
    [("abc", "0")] ⟨23, 24, 121, 122⟩ 19).2 (by
      intro p hp lat lon h1 h2
      simp only [List.mem_singleton] at hp
      subst hp
      have h1' : pyFloat? ("abc") = some lat := h1
      rw [show pyFloat? ("abc") = none from by decide] at h1'
      cases h1')

/-- C8: adjacent tiles share boundaries exactly —
`tile_to_lat_lon_bounds(x, y, z).maxLng` equals
`tile_to_lat_lon_bounds(x+1, y, z).minLng`, and
`tile_to_lat_lon_bounds(x, y, z).minLat` equals
`tile_to_lat_lon_bounds(x, y+1, z).maxLat`, with zero gap or overlap
(both sides are the same expression of the shared pixel edge). -/
theorem claim_C8_tile_adjacency (x y : ℤ) (z : ℕ) :
    (tile_to_lat_lon_bounds x y z).maxLng
      = (tile_to_lat_lon_bounds (x + 1) y z).minLng ∧
    (tile_to_lat_lon_bounds x y z).minLat
      = (tile_to_lat_lon_bounds x (y + 1) z).maxLat := by
  unfold tile_to_lat_lon_bounds
  refine ⟨?_, ?_⟩
  · push_cast
    ring
  · push_cast
    ring_nf

/-- C9, counterexample: two successful publish cycles of the same area in
the same wall-clock second 1759299905 both allocate version
`str(1759299905)`; the later version is equal to, not strictly greater
than, the earlier one in the string order used by `max(versions)`. -/
theorem claim_C9_counterexample :
    (generate_intelligent_tiles_for_area envPublishA).1
      = IntelResult.published (newTileVersion 1759299905) 1 ∧
    (generate_intelligent_tiles_for_area envPublishB).1
      = IntelResult.published (newTileVersion 1759299905) 1 ∧
    pyStrLt (newTileVersion 1759299905) (newTileVersion 1759299905)
      = false := by
  refine ⟨?_, ?_, charsLt_self _⟩
  · unfold generate_intelligent_tiles_for_area
    rw [if_neg (by decide)]
    rw [if_neg (show ¬calculate_affected_tiles envPublishA.changedGrids = ∅
      by decide)]
    rw [if_neg (by decide)]
    rw [if_neg (by decide)]
    have hc : (Finset.filter (fun t => envPublishA.uploadFails t = false)
        (calculate_affected_tiles envPublishA.changedGrids)).card = 1 := by
      decide
    rw [hc]
    rfl
  · unfold generate_intelligent_tiles_for_area
    rw [if_neg (by decide)]
    rw [if_neg (show ¬calculate_affected_tiles envPublishB.changedGrids = ∅
      by decide)]
    rw [if_neg (by decide)]
    rw [if_neg (by decide)]
    have hc : (Finset.filter (fun t => envPublishB.uploadFails t = false)
        (calculate_affected_tiles envPublishB.changedGrids)).card = 1 := by
      decide
    rw [hc]
    rfl

/-- C9, amended: versions allocated from strictly increasing integer
wall-clock seconds (in the ten-digit Unix-timestamp range) are strictly
increasing in the Python string order used to pick the latest; cycles
sharing a clock second produce equal, not strictly greater, versions. -/
theorem claim_C9_version_monotonicity (t1 t2 : ℕ) (hlo : 10 ^ 9 ≤ t1)
    (hlt : t1 < t2) (hhi : t2 < 10 ^ 10) :
    pyStrLt (newTileVersion t1) (newTileVersion t2) = true := by
  show charsLt ((natDigitsRev t1).reverse.map digitChar)
    ((natDigitsRev t2).reverse.map digitChar) = true
  apply charsLt_of_valMSD_lt
  · rw [List.length_reverse, List.length_reverse,
      natDigitsRev_length_ten t1 hlo (by omega),
      natDigitsRev_length_ten t2 (by omega) hhi]
  · intro d hd
    exact natDigitsRev_digits_lt t1 d (List.mem_reverse.mp hd)
  · intro d hd
    exact natDigitsRev_digits_lt t2 d (List.mem_reverse.mp hd)
  · rw [valMSD_digits, valMSD_digits]
    exact hlt

/-- Witness for the amended C9 at consecutive clock seconds. -/
theorem claim_C9_witness :
    pyStrLt (newTileVersion 1759299905) (newTileVersion 1759299906)
      = true :=
  claim_C9_version_monotonicity 1759299905 1759299906 (by norm_num)
    (by norm_num) (by norm_num)

/-- C10: the main generator's `calculate_affected_tiles` interprets every
change key as two integers joined by an underscore and maps it to tile
`(x // 256, y // 256)` with no area-bounds filtering; keys whose parts
are not plain integers — in particular the 4-decimal coordinate key
`23.6677_121.4370` — are silently dropped, so a change set consisting
only of unparseable keys resolves to the empty tile set. -/
theorem claim_C10_integer_key_resolution (keys : List String) :
    (∀ t, t ∈ calculate_affected_tiles keys ↔
      ∃ k ∈ keys, ∃ x y, parseGridId k = some (x, y) ∧
        t = (x.fdiv TILE_SIZE, y.fdiv TILE_SIZE)) ∧
    parseGridId ("23.6677_121.4370") = none ∧
    ((∀ k ∈ keys, parseGridId k = none) →
      calculate_affected_tiles keys = ∅) := by
  refine ⟨mem_calculate_affected_tiles keys, by decide, fun h => ?_⟩
  rw [Finset.eq_empty_iff_forall_not_mem]
  intro t ht
  rw [mem_calculate_affected_tiles] at ht
  obtain ⟨k, hk, x, y, hp, _⟩ := ht
  rw [h k hk] at hp
  cases hp

/-- Witness for C10: a change set holding only the coordinate-format key
resolves to the empty tile set. -/
theorem claim_C10_witness :
    calculate_affected_tiles ["23.6677_121.4370"] = ∅ :=
  (claim_C10_integer_key_resolution ["23.6677_121.4370"]).2.2 (by
    intro k hk
    simp only [List.mem_singleton] at hk
    subst hk
    decide)

end Guangfu
